import Mathlib

/-!
A shallow embedding of the freelan routing engine (src/libs/freelan/src/router.cpp),
the POSIX tap-adapter enumeration (src/src/posix/posix_tap_adapter.cpp) and the
cryptoplus certificate wrapper (src/include/cryptoplus/x509/certificate.hpp),
together with theorems settling the specification claims about them.

Machine integers are modelled as `Nat`; fallible or undefined-behaviour code paths
are surfaced with `Option`/`Except`.
-/

/-! ## Addresses, routes and prefix containment

`boost::asio::ip::address_v4` / `address_v6` are modelled as 32/128-bit numeric
addresses.  The route type (`asiotap::ip_route`) and the containment test
`has_address` live outside the repository excerpt, so they are modelled from the
spec.
-/

/-- An IP address of either family, carried as a numeric value
(32 bits for v4, 128 bits for v6). -/
inductive IPAddr where
  | v4 (a : Nat)
  | v6 (a : Nat)
deriving DecidableEq

/-- Bit width of the address family. -/
def IPAddr.width : IPAddr → Nat
  | .v4 _ => 32
  | .v6 _ => 128

/-- Numeric value of the address. -/
def IPAddr.val : IPAddr → Nat
  | .v4 a => a
  | .v6 a => a

/-- True when the two addresses belong to the same family. -/
def same_family : IPAddr → IPAddr → Bool
  | .v4 _, .v4 _ => true
  | .v6 _, .v6 _ => true
  | _, _ => false

/-- Modelled from the spec: `asiotap::ip_route`, a CIDR-like
(address, prefix-length) pair over either family (the type is declared in
asiotap headers that are not part of the excerpt). -/
structure ip_route where
  base : IPAddr
  prefix_len : Nat
deriving DecidableEq

/-- Modelled from the spec: `has_address(route, addr)` — containment of an
address in a network prefix, computed by masking both operands down to the
prefix length and comparing; addresses of a different family never match
(the function is declared in asiotap headers that are not part of the excerpt). -/
def has_address (r : ip_route) (a : IPAddr) : Bool :=
  same_family r.base a &&
    (r.base.val >>> (r.base.width - r.prefix_len) == a.val >>> (a.width - r.prefix_len))

/-- Rank used to order the two address families (v4 before v6). -/
def family_rank : IPAddr → Nat
  | .v4 _ => 0
  | .v6 _ => 1

/-- Modelled from the spec: the strict order on routes used by the ordered
route-table container — by (family, numeric address, descending prefix length). -/
def route_lt (r1 r2 : ip_route) : Bool :=
  family_rank r1.base < family_rank r2.base ||
    (family_rank r1.base == family_rank r2.base &&
      (r1.base.val < r2.base.val ||
        (r1.base.val == r2.base.val && r2.prefix_len < r1.prefix_len)))

/-- Ordered-multimap insertion (`m_routes->insert(std::make_pair(route, index))`):
the new entry is placed before the first strictly greater key; entries with an
equal key keep their insertion order. -/
def routes_insert (e : ip_route × Nat) : List (ip_route × Nat) → List (ip_route × Nat)
  | [] => [e]
  | f :: fs => if route_lt e.1 f.1 then e :: f :: fs else f :: routes_insert e fs

/-! ## Ports, registry, configuration and router state -/

/-- A port (`freelan::router::port_type`): a group tag and the advertised
local routes.  The asynchronous write capability is modelled at the call
site of `async_write` by recording the invocation. -/
structure port_type where
  group : Nat
  local_routes : List ip_route
deriving DecidableEq

/-- The routing configuration; the router reads only `client_routing_enabled`. -/
structure router_configuration where
  client_routing_enabled : Bool
deriving DecidableEq

/-- The router state: the port registry `m_ports` (a map from port index to
port, modelled as an association list in iteration order), the configuration,
and the lazily rebuilt route cache `m_routes` (`boost::optional`). -/
structure router where
  m_ports : List (Nat × port_type)
  m_configuration : router_configuration
  m_routes : Option (List (ip_route × Nat))
deriving DecidableEq

/-- `m_ports.find(index)`: the registry lookup, returning the map entry
(key and port) or none, the latter standing for the end iterator. -/
def ports_find : List (Nat × port_type) → Nat → Option (Nat × port_type)
  | [], _ => none
  | e :: es, i => if e.1 == i then some e else ports_find es i

/-- The rebuild loop of `router::routes`: iterate every port of the registry
and insert each of its `(local_route, port_index)` pairs into the ordered
route-table container. -/
def recompile_routes (ports : List (Nat × port_type)) : List (ip_route × Nat) :=
  ports.foldl
    (fun acc p => p.2.local_routes.foldl (fun acc2 r => routes_insert (r, p.1) acc2) acc)
    []

/-- `router::routes`: return the cached route table, rebuilding it first when
the cache was invalidated (`!m_routes`).  The second component is the router
state after the call (the rebuild stores the table in `m_routes`). -/
def routes (st : router) : List (ip_route × Nat) × router :=
  match st.m_routes with
  | some rs => (rs, st)
  | none =>
    let rs := recompile_routes st.m_ports
    (rs, { st with m_routes := some rs })

/-! ## The selector

`router::get_target_for<AddressType>` iterates the route table; for each entry
whose prefix contains the destination it looks the candidate index up in the
registry and evaluates
`m_configuration.client_routing_enabled || (source->group() != candidate->group())`.
When the candidate lookup failed (returned the end iterator), that expression
short-circuits to `return end` if `client_routing_enabled` is true, and otherwise
dereferences the end iterator to read its group — undefined behaviour, surfaced
here as `Except.error ()`.
-/

/-- The route-table scan of `router::get_target_for<AddressType>` (the loop of
lines 119–130 of router.cpp). -/
def scan_routes (flag : Bool) (ports : List (Nat × port_type))
    (source_port_entry : Nat × port_type) (dest : IPAddr) :
    List (ip_route × Nat) → Except Unit (Option (Nat × port_type))
  | [] => Except.ok none
  | rp :: rest =>
    if has_address rp.1 dest then
      match ports_find ports rp.2 with
      | some port_entry =>
        if flag || (source_port_entry.2.group != port_entry.2.group) then
          Except.ok (some port_entry)
        else
          scan_routes flag ports source_port_entry dest rest
      | none =>
        if flag then Except.ok none
        else Except.error ()
    else scan_routes flag ports source_port_entry dest rest

/-- `router::get_target_for<AddressType>` — resolve a destination address to a
port entry: look the source up in the registry (absent source means no route),
then scan the route table. -/
def get_target_for_addr (st : router) (index : Nat) (dest : IPAddr) :
    Except Unit (Option (Nat × port_type)) :=
  match ports_find st.m_ports index with
  | none => Except.ok none
  | some source_port_entry =>
    scan_routes st.m_configuration.client_routing_enabled st.m_ports
      source_port_entry dest (routes st).1

/-! ## Frame parsing and the frame-level selector

The IPv4/IPv6 filters (`asiotap::osi::filter`) are external to the excerpt.
The two concrete parsers are modelled from the spec; the frame-level selector
and `async_write` are parameterised by the two parse functions, mirroring the
router owning its two filters.
-/

/-- Big-endian byte concatenation (network byte order). -/
def bytes_to_nat (l : List Nat) : Nat :=
  l.foldl (fun a b => a * 256 + b) 0

/-- Modelled from the spec: the IPv4 frame parser — `None` on a bad version
nibble, a truncated header or an invalid header length; otherwise the
destination address read from bytes 16–19 (RFC 791). -/
def ipv4_try_parse (data : List Nat) : Option Nat :=
  match data with
  | [] => none
  | b0 :: _ =>
    let version := b0 / 16
    let ihl := b0 % 16
    if version == 4 && 5 ≤ ihl && ihl * 4 ≤ data.length then
      some (bytes_to_nat ((data.drop 16).take 4))
    else none

/-- Modelled from the spec: the IPv6 frame parser — `None` on a bad version
nibble or a buffer shorter than the fixed 40-byte header; otherwise the
destination address read from bytes 24–39 (RFC 8200). -/
def ipv6_try_parse (data : List Nat) : Option Nat :=
  match data with
  | [] => none
  | b0 :: _ =>
    if b0 / 16 == 6 && 40 ≤ data.length then
      some (bytes_to_nat ((data.drop 24).take 16))
    else none

/-- `router::get_target_for(index, data)` — try the IPv4 parser first; on
failure try the IPv6 parser; on failure again the frame is dropped. -/
def get_target_for (p4 p6 : List Nat → Option Nat) (st : router) (index : Nat)
    (data : List Nat) : Except Unit (Option (Nat × port_type)) :=
  match p4 data with
  | some d => get_target_for_addr st index (IPAddr.v4 d)
  | none =>
    match p6 data with
    | some d => get_target_for_addr st index (IPAddr.v6 d)
    | none => Except.ok none

/-- `router::async_write` — resolve a target; when the selector returned a
valid port entry, invoke that port's `async_write(data, handler)`; otherwise
invoke nothing.  The result is the list of port write invocations performed,
each recorded as (port index, data, handler). -/
def async_write (p4 p6 : List Nat → Option Nat) (st : router) (index : Nat)
    (data : List Nat) (handler : Nat) : Except Unit (List (Nat × List Nat × Nat)) :=
  match get_target_for p4 p6 st index data with
  | Except.error e => Except.error e
  | Except.ok none => Except.ok []
  | Except.ok (some port_entry) => Except.ok [(port_entry.1, data, handler)]

/-! ## Spec-side selector (for the refinement claim C1) -/

/-- The spec's policy gate on one route-table entry: the entry's prefix must
contain the destination and the candidate must pass
"client_routing_enabled or differing group tags". -/
def gate_accepts (flag : Bool) (ports : List (Nat × port_type))
    (source_port_entry : Nat × port_type) (dest : IPAddr) (e : ip_route × Nat) : Bool :=
  has_address e.1 dest &&
    (match ports_find ports e.2 with
     | some ce => flag || (source_port_entry.2.group != ce.2.group)
     | none => flag)

/-- The spec's selector: the first route-table entry, in table iteration
order, that matches the destination and passes the policy gate; none when no
entry passes. -/
def selector_spec (flag : Bool) (ports : List (Nat × port_type))
    (source_port_entry : Nat × port_type) (dest : IPAddr)
    (table : List (ip_route × Nat)) : Option (Nat × port_type) :=
  match table.find? (gate_accepts flag ports source_port_entry dest) with
  | some e => ports_find ports e.2
  | none => none

/-- The spec's flattened union of all registered ports' local routes, each
tagged with its owning port index (for the route-table coherence claim C6). -/
def flattened_local_routes (ports : List (Nat × port_type)) : List (ip_route × Nat) :=
  ports.foldr (fun p acc => p.2.local_routes.map (fun r => (r, p.1)) ++ acc) []

/-! ## POSIX tap adapter enumeration

`posix_tap_adapter::enumerate(_layer)` walks the interfaces returned by
`getifaddrs` and fills a `std::map<std::string, std::string>` with
`result[name] = name`.  The `switch (_layer)` has no `break`: the `ethernet`
case falls through into the `ip` case.  The map is modelled by its key list
(keys unique; the key ordering of `std::map` is irrelevant to membership).
-/

/-- The two tap-adapter layers. -/
inductive tap_adapter_layer where
  | ethernet
  | ip
deriving DecidableEq

/-- `result[name] = name` on a `std::map` keyed by the name: inserts the key
when absent, leaves the map unchanged otherwise. -/
def map_assign (name : String) (result : List String) : List String :=
  if name ∈ result then result else result ++ [name]

/-- The body of the `switch (_layer)` for one interface name.  In the
`ethernet` case the `tap` test runs and then — no `break` — control falls
through into the `ip` case's `tun` test. -/
def enumerate_step (layer : tap_adapter_layer) (result : List String)
    (name : String) : List String :=
  match layer with
  | .ethernet =>
    let result := if name.take 3 = "tap" then map_assign name result else result
    if name.take 3 = "tun" then map_assign name result else result
  | .ip =>
    if name.take 3 = "tun" then map_assign name result else result

/-- `posix_tap_adapter::enumerate` — iterate the interface names and collect
the matching ones into the result map. -/
def enumerate (layer : tap_adapter_layer) (ifnames : List String) : List String :=
  ifnames.foldl (enumerate_step layer) []

/-! ## cryptoplus certificates

`cryptoplus::x509::certificate` wraps a raw `X509*`.  Pointers are modelled as
numeric addresses (0 = `NULL`) in an allocation heap mapping each live pointer
to the (abstract, numeric) certificate contents; `X509_dup` copies the contents
into a freshly allocated object. -/

/-- A certificate wrapper: its only state relevant here is the raw `X509*`. -/
structure certificate where
  raw : Nat
deriving DecidableEq

/-- The OpenSSL allocation heap: the next fresh address and the allocated
objects (pointer, contents). -/
structure OpenSSLHeap where
  nextPtr : Nat
  objects : List (Nat × Nat)
deriving DecidableEq

/-- Dereference a pointer in the heap. -/
def heap_lookup (h : OpenSSLHeap) (p : Nat) : Option Nat :=
  match h.objects.find? (fun pc => pc.1 == p) with
  | some pc => some pc.2
  | none => none

/-- Heap well-formedness: every allocated pointer is non-null and below the
fresh-address watermark. -/
def heap_wf (h : OpenSSLHeap) : Bool :=
  0 < h.nextPtr && h.objects.all (fun pc => pc.1 != 0 && pc.1 < h.nextPtr)

/-- `X509_dup(p)`: allocate a fresh object holding a copy of `p`'s contents
and return its pointer; `NULL` when `p` does not dereference. -/
def X509_dup (h : OpenSSLHeap) (p : Nat) : Nat × OpenSSLHeap :=
  match heap_lookup h p with
  | some c => (h.nextPtr, ⟨h.nextPtr + 1, (h.nextPtr, c) :: h.objects⟩)
  | none => (0, h)

/-- `certificate::clone` — `certificate(X509_dup(ptr().get()))`. -/
def certificate_clone (h : OpenSSLHeap) (c : certificate) : certificate × OpenSSLHeap :=
  let pd := X509_dup h c.raw
  (⟨pd.1⟩, pd.2)

/-- `operator==(lhs, rhs)` — `lhs.raw() == rhs.raw()`: identity of the
underlying native pointers. -/
def certificate_eq (a b : certificate) : Bool :=
  a.raw == b.raw

/-- `operator!=(lhs, rhs)` — `lhs.raw() != rhs.raw()`. -/
def certificate_ne (a b : certificate) : Bool :=
  a.raw != b.raw

/-! ## Concrete states used by counterexamples and witnesses -/

/-- The all-v4 route `0.0.0.0/0`, which contains every IPv4 address. -/
def route_all_v4 : ip_route := ⟨IPAddr.v4 0, 0⟩

/-- A sample IPv4 destination address. -/
def dest_sample : IPAddr := IPAddr.v4 1

/-- A port of group 0 advertising nothing. -/
def port_g0 : port_type := ⟨0, []⟩

/-- A port of group 1 advertising the all-v4 route. -/
def port_g1_adv : port_type := ⟨1, [route_all_v4]⟩

/-- A port of group 0 advertising the all-v4 route (a self-route setup). -/
def port_self : port_type := ⟨0, [route_all_v4]⟩

/-- A router whose cached route table references index 5, absent from the
registry, ahead of the registered index 2; client routing enabled. -/
def st_stale_cache : router :=
  ⟨[(0, port_g0), (2, ⟨1, []⟩)], ⟨true⟩, some [(route_all_v4, 5), (route_all_v4, 2)]⟩

/-- A router with one port whose own route matches everything; client routing
enabled. -/
def st_self_route : router := ⟨[(0, port_self)], ⟨true⟩, none⟩

/-- A router whose cached route table references only the absent index 5;
client routing disabled. -/
def st_absent_candidate : router := ⟨[(0, port_g0)], ⟨false⟩, some [(route_all_v4, 5)]⟩

/-- Two ports in different groups, the second advertising the all-v4 route;
client routing disabled. -/
def st_cross_group : router := ⟨[(0, port_g0), (1, port_g1_adv)], ⟨false⟩, none⟩

/-- An empty router. -/
def st_empty : router := ⟨[], ⟨false⟩, none⟩

/-- A minimal 20-byte IPv4 packet with destination 10.0.1.5. -/
def pkt_v4_sample : List Nat :=
  [69, 0, 0, 20, 0, 0, 0, 0, 64, 0, 0, 0, 10, 0, 0, 1, 10, 0, 1, 5]

/-- A minimal 40-byte IPv6 packet with destination 2001:db8::1. -/
def pkt_v6_sample : List Nat :=
  96 :: List.replicate 23 0 ++ [32, 1, 13, 184, 0, 0, 0, 0, 0, 0, 0, 0, 0, 0, 0, 1]

/-- A heap with one live X509 object at pointer 1 holding contents 42. -/
def heap_sample : OpenSSLHeap := ⟨2, [(1, 42)]⟩

/-- A router with a present (valid) route cache. -/
def st_cached : router := ⟨[(0, port_g0)], ⟨true⟩, some [(route_all_v4, 9)]⟩

/-! ## Helper lemmas -/

/-- A successful registry lookup returns an entry carrying the looked-up key. -/
theorem ports_find_key : ∀ (ports : List (Nat × port_type)) (i : Nat) (e : Nat × port_type),
    ports_find ports i = some e → e.1 = i := by
  intro ports i
  induction ports with
  | nil => intro e h; simp [ports_find] at h
  | cons f fs ih =>
    intro e h
    simp only [ports_find] at h
    split at h
    · rename_i hf
      cases h
      exact eq_of_beq hf
    · exact ih e h

/-- When client routing is disabled, an entry accepted by the scan is a
registered port whose group differs from the source's. -/
theorem scan_routes_false_some :
    ∀ (ports : List (Nat × port_type)) (se : Nat × port_type) (dest : IPAddr)
      (l : List (ip_route × Nat)) (pe : Nat × port_type),
    scan_routes false ports se dest l = Except.ok (some pe) →
    ports_find ports pe.1 = some pe ∧ se.2.group ≠ pe.2.group := by
  intro ports se dest l
  induction l with
  | nil => intro pe h; simp [scan_routes] at h
  | cons rp rest ih =>
    intro pe h
    simp only [scan_routes] at h
    split at h
    · split at h
      · rename_i port_entry hfind
        split at h
        · rename_i hcond
          simp only [Except.ok.injEq, Option.some.injEq] at h
          rw [← h]
          have hkey := ports_find_key ports rp.2 port_entry hfind
          refine ⟨by rw [hkey]; exact hfind, ?_⟩
          simp only [Bool.false_or, bne_iff_ne, ne_eq] at hcond
          exact hcond
        · exact ih pe h
      · simp at h
    · exact ih pe h

/-- Enabling client routing preserves a delivered outcome of the scan. -/
theorem scan_routes_mono :
    ∀ (ports : List (Nat × port_type)) (se : Nat × port_type) (dest : IPAddr)
      (l : List (ip_route × Nat)) (pe : Nat × port_type),
    scan_routes false ports se dest l = Except.ok (some pe) →
    ∃ pe', scan_routes true ports se dest l = Except.ok (some pe') := by
  intro ports se dest l
  induction l with
  | nil => intro pe h; simp [scan_routes] at h
  | cons rp rest ih =>
    intro pe h
    cases hadr : has_address rp.1 dest with
    | false =>
      simp only [scan_routes, hadr, Bool.false_eq_true, if_false] at h ⊢
      exact ih pe h
    | true =>
      cases hfind : ports_find ports rp.2 with
      | none => simp [scan_routes, hadr, hfind] at h
      | some ce =>
        refine ⟨ce, ?_⟩
        simp [scan_routes, hadr, hfind]

/-- The route table returned by `routes` does not depend on the configuration. -/
theorem routes_fst_config (ports : List (Nat × port_type)) (c1 c2 : router_configuration)
    (cache : Option (List (ip_route × Nat))) :
    (routes ⟨ports, c1, cache⟩).1 = (routes ⟨ports, c2, cache⟩).1 := by
  cases cache <;> rfl

/-- When every matching entry's candidate is registered, the scan agrees with
the spec-side first-match selector. -/
theorem scan_routes_spec :
    ∀ (flag : Bool) (ports : List (Nat × port_type)) (se : Nat × port_type) (dest : IPAddr)
      (l : List (ip_route × Nat)),
    (∀ e ∈ l, has_address e.1 dest = true → (ports_find ports e.2).isSome = true) →
    scan_routes flag ports se dest l = Except.ok (selector_spec flag ports se dest l) := by
  intro flag ports se dest l
  induction l with
  | nil => intro _; rfl
  | cons rp rest ih =>
    intro hc
    have hrest : ∀ e ∈ rest, has_address e.1 dest = true → (ports_find ports e.2).isSome = true :=
      fun e he => hc e (List.mem_cons_of_mem _ he)
    cases hadr : has_address rp.1 dest with
    | false =>
      have hg : gate_accepts flag ports se dest rp = false := by
        simp [gate_accepts, hadr]
      simp only [scan_routes, hadr, Bool.false_eq_true, if_false]
      rw [ih hrest]
      simp only [selector_spec, List.find?, hg]
    | true =>
      have hsome := hc rp (List.mem_cons_self rp rest) hadr
      cases hfind : ports_find ports rp.2 with
      | none => rw [hfind] at hsome; simp at hsome
      | some ce =>
        cases hcnd : (flag || (se.2.group != ce.2.group)) with
        | true =>
          have hg : gate_accepts flag ports se dest rp = true := by
            simp only [gate_accepts, hadr, hfind, Bool.true_and]
            exact hcnd
          simp only [scan_routes, hadr, if_true, hfind, hcnd]
          simp only [selector_spec, List.find?, hg, hfind]
        | false =>
          have hg : gate_accepts flag ports se dest rp = false := by
            simp only [gate_accepts, hadr, hfind, Bool.true_and]
            exact hcnd
          simp only [scan_routes, hadr, if_true, hfind, hcnd, Bool.false_eq_true, if_false]
          rw [ih hrest]
          simp only [selector_spec, List.find?, hg]

/-- Ordered insertion permutes to consing the new entry. -/
theorem routes_insert_perm (e : ip_route × Nat) :
    ∀ l : List (ip_route × Nat), (routes_insert e l).Perm (e :: l) := by
  intro l
  induction l with
  | nil => simp [routes_insert]
  | cons f fs ih =>
    simp only [routes_insert]
    split
    · exact List.Perm.refl _
    · exact (List.Perm.cons f ih).trans (List.Perm.swap e f fs)

/-- Folding one port's local routes into the table permutes to prepending the
tagged routes. -/
theorem local_insert_perm (i : Nat) :
    ∀ (rs : List ip_route) (acc : List (ip_route × Nat)),
    (rs.foldl (fun acc2 r => routes_insert (r, i) acc2) acc).Perm
      (rs.map (fun r => (r, i)) ++ acc) := by
  intro rs
  induction rs with
  | nil => intro acc; simp
  | cons r rest ih =>
    intro acc
    simp only [List.foldl_cons, List.map_cons, List.cons_append]
    have h1 := ih (routes_insert (r, i) acc)
    have h2 : (rest.map (fun r => (r, i)) ++ routes_insert (r, i) acc).Perm
        (rest.map (fun r => (r, i)) ++ ((r, i) :: acc)) :=
      List.Perm.append_left _ (routes_insert_perm (r, i) acc)
    exact (h1.trans h2).trans List.perm_middle

/-- `flattened_local_routes` unfolds on a cons cell. -/
theorem flattened_cons (p : Nat × port_type) (ps : List (Nat × port_type)) :
    flattened_local_routes (p :: ps) =
      p.2.local_routes.map (fun r => (r, p.1)) ++ flattened_local_routes ps := rfl

/-- The rebuild fold starting from any accumulator permutes to the flattened
union followed by that accumulator. -/
theorem recompile_routes_perm_aux :
    ∀ (ports : List (Nat × port_type)) (acc : List (ip_route × Nat)),
    (ports.foldl
      (fun acc p => p.2.local_routes.foldl (fun acc2 r => routes_insert (r, p.1) acc2) acc)
      acc).Perm (flattened_local_routes ports ++ acc) := by
  intro ports
  induction ports with
  | nil => intro acc; simp [flattened_local_routes]
  | cons p ps ih =>
    intro acc
    simp only [List.foldl_cons, flattened_cons]
    have h1 := ih (p.2.local_routes.foldl (fun acc2 r => routes_insert (r, p.1) acc2) acc)
    have h2 := local_insert_perm p.1 p.2.local_routes acc
    have h3 : (flattened_local_routes ps ++ (p.2.local_routes.map (fun r => (r, p.1)) ++ acc)).Perm
        ((p.2.local_routes.map (fun r => (r, p.1)) ++ flattened_local_routes ps) ++ acc) := by
      rw [← List.append_assoc]
      exact List.Perm.append_right acc List.perm_append_comm
    exact (h1.trans (List.Perm.append_left _ h2)).trans h3

/-- The rebuilt route table is a permutation of the flattened union of the
registered ports' tagged local routes. -/
theorem recompile_routes_perm (ports : List (Nat × port_type)) :
    (recompile_routes ports).Perm (flattened_local_routes ports) := by
  have h := recompile_routes_perm_aux ports []
  simpa [recompile_routes] using h

/-- Membership in the map-assign models key insertion. -/
theorem mem_map_assign (x n : String) (l : List String) :
    x ∈ map_assign n l ↔ x = n ∨ x ∈ l := by
  unfold map_assign
  split
  · rename_i hmem
    constructor
    · intro hx; exact Or.inr hx
    · intro hx
      cases hx with
      | inl he => rw [he]; exact hmem
      | inr h => exact h
  · rw [List.mem_append, List.mem_singleton]
    tauto

set_option maxHeartbeats 2000000 in
/-- Membership after one `ethernet` switch body: the interface is kept when
its name starts with `tap` or — by fallthrough — with `tun`. -/
theorem mem_enumerate_step_ethernet (acc : List String) (name x : String) :
    x ∈ enumerate_step tap_adapter_layer.ethernet acc name ↔
      x ∈ acc ∨ (x = name ∧ (name.take 3 = "tap" ∨ name.take 3 = "tun")) := by
  simp only [enumerate_step]
  by_cases h1 : name.take 3 = "tap"
  · by_cases h2 : name.take 3 = "tun"
    · rw [if_pos h2, if_pos h1, mem_map_assign, mem_map_assign]
      tauto
    · rw [if_neg h2, if_pos h1, mem_map_assign]
      tauto
  · by_cases h2 : name.take 3 = "tun"
    · rw [if_pos h2, if_neg h1, mem_map_assign]
      tauto
    · rw [if_neg h2, if_neg h1]
      tauto

set_option maxHeartbeats 2000000 in
/-- Membership after one `ip` switch body: the interface is kept exactly when
its name starts with `tun`. -/
theorem mem_enumerate_step_ip (acc : List String) (name x : String) :
    x ∈ enumerate_step tap_adapter_layer.ip acc name ↔
      x ∈ acc ∨ (x = name ∧ name.take 3 = "tun") := by
  simp only [enumerate_step]
  by_cases h2 : name.take 3 = "tun"
  · rw [if_pos h2, mem_map_assign]
    tauto
  · rw [if_neg h2]
    tauto

/-- Membership through the enumeration fold, for any per-name condition that
characterises one switch body. -/
theorem mem_foldl_enumerate (layer : tap_adapter_layer) (cond : String → Prop)
    (hstep : ∀ (acc : List String) (name x : String),
      x ∈ enumerate_step layer acc name ↔ x ∈ acc ∨ (x = name ∧ cond name)) :
    ∀ (names : List String) (acc : List String) (x : String),
    x ∈ names.foldl (enumerate_step layer) acc ↔ x ∈ acc ∨ (x ∈ names ∧ cond x) := by
  intro names
  induction names with
  | nil => intro acc x; simp
  | cons name rest ih =>
    intro acc x
    simp only [List.foldl_cons, List.mem_cons]
    rw [ih, hstep]
    constructor
    · rintro ((hx | ⟨rfl, hc⟩) | ⟨hr, hc⟩)
      · exact Or.inl hx
      · exact Or.inr ⟨Or.inl rfl, hc⟩
      · exact Or.inr ⟨Or.inr hr, hc⟩
    · rintro (hx | ⟨rfl | hr, hc⟩)
      · exact Or.inl (Or.inl hx)
      · exact Or.inl (Or.inr ⟨rfl, hc⟩)
      · exact Or.inr ⟨hr, hc⟩

/-- A pointer that dereferences in a well-formed heap is non-null and below
the allocation watermark. -/
theorem heap_lookup_lt (h : OpenSSLHeap) (p : Nat) (c : Nat)
    (hwf : heap_wf h = true) (hl : heap_lookup h p = some c) : p ≠ 0 ∧ p < h.nextPtr := by
  unfold heap_lookup at hl
  cases hf : h.objects.find? (fun pc => pc.1 == p) with
  | none => rw [hf] at hl; simp at hl
  | some pc =>
    have hmem := List.mem_of_find?_eq_some hf
    have hpred := List.find?_some hf
    have hp : pc.1 = p := by simpa using hpred
    unfold heap_wf at hwf
    simp only [Bool.and_eq_true, List.all_eq_true] at hwf
    obtain ⟨_, hall⟩ := hwf
    have hpc := hall pc hmem
    simp only [Bool.and_eq_true, bne_iff_ne, ne_eq, decide_eq_true_eq] at hpc
    rw [hp] at hpc
    exact ⟨hpc.1, hpc.2⟩

/-! ## Claim theorems -/

/-- C1 (counterexample): with client routing enabled — so every matching
entry passes the claim's policy gate — and a matching route-table entry
present, the selector nevertheless returns "no route", because the first
matching entry's owner (index 5) is absent from the registry and the code
returns the end iterator instead of taking the first passing entry. -/
theorem C1_selector_counterexample :
    st_stale_cache.m_configuration.client_routing_enabled = true ∧
    ports_find st_stale_cache.m_ports 0 = some (0, port_g0) ∧
    ((routes st_stale_cache).1.any (fun e => has_address e.1 dest_sample)) = true ∧
    get_target_for_addr st_stale_cache 0 dest_sample = Except.ok none :=
  ⟨rfl, rfl, rfl, rfl⟩

/-- C1 (amended): for every destination resolution where the source port is
registered and every matching route-table entry's owner is registered, the
selector returns exactly the first route-table entry, in table iteration
order, whose prefix contains the destination and whose owning port passes the
policy gate (client routing enabled, or differing group tags); if no entry
passes it returns "no route". -/
theorem C1_selector_first_match (st : router) (index : Nat) (dest : IPAddr)
    (se : Nat × port_type)
    (hsrc : ports_find st.m_ports index = some se)
    (hcands : ∀ e ∈ (routes st).1, has_address e.1 dest = true →
      (ports_find st.m_ports e.2).isSome = true) :
    get_target_for_addr st index dest =
      Except.ok (selector_spec st.m_configuration.client_routing_enabled st.m_ports se dest
        (routes st).1) := by
  unfold get_target_for_addr
  rw [hsrc]
  exact scan_routes_spec _ _ _ _ _ hcands

/-- C1 (witness): the amended claim applied to the concrete cross-group
router. -/
theorem C1_selector_witness :
    get_target_for_addr st_cross_group 0 dest_sample =
      Except.ok (selector_spec false st_cross_group.m_ports (0, port_g0) dest_sample
        (routes st_cross_group).1) :=
  C1_selector_first_match st_cross_group 0 dest_sample (0, port_g0) (by rfl) (by decide)

/-- C2 (counterexample): with client routing enabled, a frame from port 0
whose destination matches port 0's own advertised route resolves back to
port 0 — the selector performs no self-route check, so destination = source. -/
theorem C2_no_self_route_counterexample :
    get_target_for_addr st_self_route 0 dest_sample = Except.ok (some (0, port_self)) :=
  rfl

/-- C2 (amended): when client routing is disabled, any destination resolved by
the selector differs from the source index (the self-candidate shares the
source's group tag and is rejected by the policy gate). -/
theorem C2_no_self_route_amended (st : router) (index : Nat) (dest : IPAddr)
    (pe : Nat × port_type)
    (hflag : st.m_configuration.client_routing_enabled = false)
    (hres : get_target_for_addr st index dest = Except.ok (some pe)) :
    pe.1 ≠ index := by
  cases hsrc : ports_find st.m_ports index with
  | none => simp [get_target_for_addr, hsrc] at hres
  | some se =>
    simp only [get_target_for_addr, hsrc, hflag] at hres
    obtain ⟨hfind, hgrp⟩ := scan_routes_false_some st.m_ports se dest (routes st).1 pe hres
    intro hip
    rw [hip, hsrc] at hfind
    cases hfind
    exact hgrp rfl

/-- C2 (witness): the amended claim at the concrete cross-group router, where
the resolved destination 1 differs from the source 0. -/
theorem C2_no_self_route_witness :
    get_target_for_addr st_cross_group 0 dest_sample = Except.ok (some (1, port_g1_adv)) ∧
    (1 : Nat) ≠ 0 :=
  ⟨rfl, C2_no_self_route_amended st_cross_group 0 dest_sample (1, port_g1_adv) rfl rfl⟩

/-- C3: a matching route whose owning index is absent from the registry is
NOT skipped.  With client routing disabled the code reads the group of the
end iterator — undefined behaviour (`Except.error`); with client routing
enabled it returns the end iterator, terminating the scan as "no route"
even though a registered later candidate (port 2) exists. -/
theorem C3_absent_candidate_code_bug :
    get_target_for_addr st_absent_candidate 0 dest_sample = Except.error () ∧
    get_target_for_addr st_stale_cache 0 dest_sample = Except.ok none ∧
    ports_find st_stale_cache.m_ports 2 = some (2, ⟨1, []⟩) :=
  ⟨rfl, rfl, rfl⟩

/-- C4: when the selector returns a valid port entry, `async_write` performs
exactly one write on that port with the same data and handler; when the
selector returns "no route", it performs no write at all. -/
theorem C4_handler_exactly_once (p4 p6 : List Nat → Option Nat) (st : router) (index : Nat)
    (data : List Nat) (handler : Nat) :
    (∀ pe, get_target_for p4 p6 st index data = Except.ok (some pe) →
      async_write p4 p6 st index data handler = Except.ok [(pe.1, data, handler)]) ∧
    (get_target_for p4 p6 st index data = Except.ok none →
      async_write p4 p6 st index data handler = Except.ok []) := by
  constructor
  · intro pe h
    unfold async_write
    rw [h]
  · intro h
    unfold async_write
    rw [h]

/-- C4 (witness): one delivered write and one silent drop at concrete inputs. -/
theorem C4_handler_witness :
    async_write ipv4_try_parse ipv6_try_parse st_cross_group 0 pkt_v4_sample 7 =
      Except.ok [(1, pkt_v4_sample, 7)] ∧
    async_write ipv4_try_parse ipv6_try_parse st_empty 0 pkt_v4_sample 7 = Except.ok [] :=
  ⟨(C4_handler_exactly_once ipv4_try_parse ipv6_try_parse st_cross_group 0 pkt_v4_sample 7).1
      (1, port_g1_adv) rfl,
   (C4_handler_exactly_once ipv4_try_parse ipv6_try_parse st_empty 0 pkt_v4_sample 7).2 rfl⟩

/-- Address-level policy monotonicity: a delivery under the disabled flag is
still a delivery under the enabled flag. -/
theorem get_target_for_addr_mono (ports : List (Nat × port_type))
    (cache : Option (List (ip_route × Nat))) (index : Nat) (dest : IPAddr)
    (pe : Nat × port_type)
    (h : get_target_for_addr ⟨ports, ⟨false⟩, cache⟩ index dest = Except.ok (some pe)) :
    ∃ pe', get_target_for_addr ⟨ports, ⟨true⟩, cache⟩ index dest = Except.ok (some pe') := by
  cases hsrc : ports_find ports index with
  | none => simp [get_target_for_addr, hsrc] at h
  | some se =>
    simp only [get_target_for_addr, hsrc] at h ⊢
    rw [routes_fst_config ports ⟨false⟩ ⟨true⟩ cache] at h
    exact scan_routes_mono _ _ _ _ _ h

/-- C5: for a fixed registry, cache, source and frame, a frame delivered with
`client_routing_enabled = false` is also delivered with
`client_routing_enabled = true`: enabling the flag never turns a delivery
into a drop. -/
theorem C5_policy_monotonicity (ports : List (Nat × port_type))
    (cache : Option (List (ip_route × Nat))) (index : Nat) (data : List Nat)
    (pe : Nat × port_type)
    (hdeliv : get_target_for ipv4_try_parse ipv6_try_parse ⟨ports, ⟨false⟩, cache⟩ index data =
      Except.ok (some pe)) :
    ∃ pe', get_target_for ipv4_try_parse ipv6_try_parse ⟨ports, ⟨true⟩, cache⟩ index data =
      Except.ok (some pe') := by
  unfold get_target_for at hdeliv ⊢
  cases h4 : ipv4_try_parse data with
  | some a =>
    rw [h4] at hdeliv
    exact get_target_for_addr_mono ports cache index (IPAddr.v4 a) pe hdeliv
  | none =>
    rw [h4] at hdeliv
    cases h6 : ipv6_try_parse data with
    | some a =>
      rw [h6] at hdeliv
      exact get_target_for_addr_mono ports cache index (IPAddr.v6 a) pe hdeliv
    | none =>
      rw [h6] at hdeliv
      exact Option.noConfusion (Except.ok.inj hdeliv)

/-- C5 (witness): the cross-group delivery survives enabling client routing. -/
theorem C5_policy_witness :
    ∃ pe', get_target_for ipv4_try_parse ipv6_try_parse
      ⟨st_cross_group.m_ports, ⟨true⟩, none⟩ 0 pkt_v4_sample = Except.ok (some pe') :=
  C5_policy_monotonicity st_cross_group.m_ports none 0 pkt_v4_sample (1, port_g1_adv) rfl

/-- C6: when the cache is absent, `routes` rebuilds it by folding every
registered port's tagged local routes into the table, whose contents are a
permutation of the flattened union of all registered ports' local routes
tagged by owner, and stores the rebuilt table in the cache; when the cache is
present, `routes` returns it with the state unchanged. -/
theorem C6_route_table_coherence (st : router) :
    (st.m_routes = none →
      (routes st).1 = recompile_routes st.m_ports ∧
      ((routes st).1).Perm (flattened_local_routes st.m_ports) ∧
      (routes st).2 = { st with m_routes := some (recompile_routes st.m_ports) }) ∧
    (∀ c, st.m_routes = some c → routes st = (c, st)) := by
  constructor
  · intro h
    have h1 : routes st =
        (recompile_routes st.m_ports,
          { st with m_routes := some (recompile_routes st.m_ports) }) := by
      unfold routes
      rw [h]
    rw [h1]
    exact ⟨rfl, recompile_routes_perm st.m_ports, rfl⟩
  · intro c h
    unfold routes
    rw [h]

/-- C6 (witness): a rebuild from an invalidated cache and a cache hit at
concrete states. -/
theorem C6_route_table_witness :
    ((routes st_cross_group).1).Perm (flattened_local_routes st_cross_group.m_ports) ∧
    routes st_cached = ([(route_all_v4, 9)], st_cached) :=
  ⟨((C6_route_table_coherence st_cross_group).1 rfl).2.1,
   (C6_route_table_coherence st_cached).2 [(route_all_v4, 9)] rfl⟩

/-- C7: a frame whose source port index is absent from the registry is always
resolved to "no route", for any parsers, any frame contents, any route table
and any policy flag. -/
theorem C7_unknown_source_drop (p4 p6 : List Nat → Option Nat) (st : router) (index : Nat)
    (data : List Nat) (h : ports_find st.m_ports index = none) :
    get_target_for p4 p6 st index data = Except.ok none := by
  unfold get_target_for
  cases h4 : p4 data with
  | some a => simp [get_target_for_addr, h]
  | none =>
    cases h6 : p6 data with
    | some a => simp [get_target_for_addr, h]
    | none => rfl

/-- C7 (witness): an unknown source index 5 is dropped on an otherwise
routable IPv4 frame. -/
theorem C7_unknown_source_witness :
    get_target_for ipv4_try_parse ipv6_try_parse st_empty 5 pkt_v4_sample = Except.ok none :=
  C7_unknown_source_drop ipv4_try_parse ipv6_try_parse st_empty 5 pkt_v4_sample rfl

/-- C8: the selector attempts the IPv4 parse first — when it succeeds the
frame is resolved with the extracted v4 destination and the result does not
depend on the IPv6 parser at all; only when IPv4 parsing fails is the IPv6
parser consulted; when both fail the frame yields "no route"; both parsers
fail on the empty buffer. -/
theorem C8_parse_order :
    (∀ (p6 : List Nat → Option Nat) (st : router) (index : Nat) (data : List Nat) (a : Nat),
        ipv4_try_parse data = some a →
        get_target_for ipv4_try_parse p6 st index data =
          get_target_for_addr st index (IPAddr.v4 a)) ∧
    (∀ (st : router) (index : Nat) (data : List Nat) (a : Nat),
        ipv4_try_parse data = none → ipv6_try_parse data = some a →
        get_target_for ipv4_try_parse ipv6_try_parse st index data =
          get_target_for_addr st index (IPAddr.v6 a)) ∧
    (∀ (st : router) (index : Nat) (data : List Nat),
        ipv4_try_parse data = none → ipv6_try_parse data = none →
        get_target_for ipv4_try_parse ipv6_try_parse st index data = Except.ok none) ∧
    ipv4_try_parse [] = none ∧ ipv6_try_parse [] = none := by
  refine ⟨?_, ?_, ?_, rfl, rfl⟩
  · intro p6 st index data a h4
    simp [get_target_for, h4]
  · intro st index data a h4 h6
    simp [get_target_for, h4, h6]
  · intro st index data h4 h6
    simp [get_target_for, h4, h6]

/-- C8 (witness): the three parse dispositions at concrete frames — an IPv4
packet, an IPv6 packet and an unparseable 3-byte buffer. -/
theorem C8_parse_order_witness :
    get_target_for ipv4_try_parse ipv6_try_parse st_cross_group 0 pkt_v4_sample =
      get_target_for_addr st_cross_group 0 (IPAddr.v4 167772421) ∧
    get_target_for ipv4_try_parse ipv6_try_parse st_cross_group 0 pkt_v6_sample =
      get_target_for_addr st_cross_group 0
        (IPAddr.v6 42540766411282592856903984951653826561) ∧
    get_target_for ipv4_try_parse ipv6_try_parse st_cross_group 0 [1, 2, 3] = Except.ok none :=
  ⟨C8_parse_order.1 ipv6_try_parse st_cross_group 0 pkt_v4_sample 167772421 rfl,
   C8_parse_order.2.1 st_cross_group 0 pkt_v6_sample
     42540766411282592856903984951653826561 rfl rfl,
   C8_parse_order.2.2.1 st_cross_group 0 [1, 2, 3] rfl rfl⟩

/-- C9: enumerating with the ethernet layer yields exactly the interfaces
whose name begins with "tap" together with — via the missing `break` — those
beginning with "tun"; enumerating with the ip layer yields exactly those
beginning with "tun". -/
theorem C9_enumerate_fallthrough (ifnames : List String) (n : String) :
    (n ∈ enumerate tap_adapter_layer.ethernet ifnames ↔
      n ∈ ifnames ∧ (n.take 3 = "tap" ∨ n.take 3 = "tun")) ∧
    (n ∈ enumerate tap_adapter_layer.ip ifnames ↔ n ∈ ifnames ∧ n.take 3 = "tun") := by
  constructor
  · have h := mem_foldl_enumerate tap_adapter_layer.ethernet
      (fun s => s.take 3 = "tap" ∨ s.take 3 = "tun")
      (fun acc name x => mem_enumerate_step_ethernet acc name x) ifnames [] n
    simpa [enumerate] using h
  · have h := mem_foldl_enumerate tap_adapter_layer.ip (fun s => s.take 3 = "tun")
      (fun acc name x => mem_enumerate_step_ip acc name x) ifnames [] n
    simpa [enumerate] using h

/-- C10: certificate equality is identity of the wrapped native pointer —
`operator==` holds exactly when the two raw pointers coincide — and a clone of
a live certificate compares unequal to the original even though the duplicate
carries the same contents. -/
theorem C10_certificate_pointer_identity :
    (∀ a b : certificate, certificate_eq a b = true ↔ a.raw = b.raw) ∧
    (∀ (h : OpenSSLHeap) (c : certificate) (cc : Nat),
      heap_wf h = true → heap_lookup h c.raw = some cc →
      certificate_eq (certificate_clone h c).1 c = false ∧
      heap_lookup (certificate_clone h c).2 (certificate_clone h c).1.raw = some cc) := by
  constructor
  · intro a b
    simp [certificate_eq]
  · intro h c cc hwf hl
    obtain ⟨hne, hlt⟩ := heap_lookup_lt h c.raw cc hwf hl
    constructor
    · simp only [certificate_clone, X509_dup, hl, certificate_eq]
      simp only [beq_eq_false_iff_ne, ne_eq]
      omega
    · simp only [certificate_clone, X509_dup, hl]
      simp [heap_lookup, List.find?]

/-- C10 (witness): cloning the live certificate at pointer 1 yields a
pointer-unequal certificate with identical contents 42. -/
theorem C10_certificate_witness :
    certificate_eq (certificate_clone heap_sample ⟨1⟩).1 ⟨1⟩ = false ∧
    heap_lookup (certificate_clone heap_sample ⟨1⟩).2
      (certificate_clone heap_sample ⟨1⟩).1.raw = some 42 :=
  C10_certificate_pointer_identity.2 heap_sample ⟨1⟩ 42 (by decide) rfl
